import Mathlib

/-!
Wormhole explorer: gossip router (`fly/processor`) and payload processor (`parser/processor`)

A shallow embedding of

* `vaaGossipConsumer.Push`  (`fly/processor/vaa_gossip_consumer.go`)
* `Processor.Process`       (`parser/processor/processor.go`)

Both functions are glue over injected collaborators (guardian-set verifier, deduplicator,
downstream push functions, decode service, repository, logger, clock).  The collaborators are
parameters of the embedding: each one is an arbitrary transformer of an abstract collaborator
state `σ`.  Every call a function makes to a collaborator is recorded, in program order, in a
call trace that the collaborators themselves cannot touch, so that "is invoked exactly once
with these arguments" and "is never invoked" are statements about that trace.
-/

namespace WormholeExplorer

/-! ## Go values -/

/-- Go `[]byte`. -/
abbrev Bytes := List Nat

/-- Go `time.Time`, as an opaque instant. -/
abbrev Time := Nat

/-- Go `context.Context`, as an opaque token that is only passed along. -/
abbrev Ctx := Nat

/-- Go `error` values: a package-level sentinel made by `errors.New`, identified by the
variable that holds it; an error that wraps one other error (`Unwrap() error`, as made by
`fmt.Errorf` with one `%w`); or an error that wraps several errors at once
(`Unwrap() []error`, as made by `errors.Join` or `fmt.Errorf` with several `%w`; a longer list
nests).  An error whose own `Is` method accepts a target answers `errors.Is` as a `join` that
holds that target does.  The Go value `nil` of type `error` is `none : Option GoError`. -/
inductive GoError where
  | sentinel (name : String)
  | wrap (msg : String) (inner : GoError)
  | join (left : GoError) (right : GoError)
deriving DecidableEq, Repr

/-- Go `errors.Is(err, target)`: report whether `err` equals `target`, or, going depth-first
through what `err` unwraps to (the one error of `Unwrap() error`, each error of
`Unwrap() []error`), whether one of those matches `target`.  The targets used by `Process` are
sentinels. -/
def errorsIs : GoError → GoError → Bool
  | .sentinel n, target => decide (GoError.sentinel n = target)
  | .wrap m inner, target => decide (GoError.wrap m inner = target) || errorsIs inner target
  | .join left right, target =>
    decide (GoError.join left right = target) || errorsIs left target || errorsIs right target

/-- The SDK's `vaa.Signature`: a guardian index and that guardian's signature. -/
structure GuardianSignature where
  Index : Nat
  Signature : Bytes
deriving DecidableEq, Repr

/-- The SDK's `vaa.VAA` message (the type declaration is not part of this repository; the
fields are those of spec §3 "Message").  `EmitterChain` is a `ChainID` (`uint16`), `Sequence` a
`uint64`, `EmitterAddress` a 32-byte `Address`. -/
structure VAA where
  Version : Nat
  GuardianSetIndex : Nat
  Signatures : List GuardianSignature
  Timestamp : Time
  Nonce : Nat
  Sequence : Nat
  ConsistencyLevel : Nat
  EmitterChain : Nat
  EmitterAddress : Bytes
  Payload : Bytes
deriving DecidableEq, Repr

/-- What the code uses of the SDK package `vaa`, taken as a parameter: the envelope decoder
`vaa.Unmarshal`, the method `(*VAA).MessageID`, the method `Address.String` and the constant
`vaa.ChainIDPythNet`. -/
structure VaaSdk where
  Unmarshal : Bytes → Except GoError VAA
  MessageID : VAA → String
  AddressString : Bytes → String
  ChainIDPythNet : Nat

/-- The `parser.ParseVaaResponse` the decode service answers with. `Result` is an
`interface{}` in Go; it is only copied, and is kept here as an opaque string. -/
structure ParseVaaResponse where
  AppID : String
  Result : String
deriving DecidableEq, Repr

/-- The `parser.ParsedVaaUpdate` record, with the fields that the composite literal in
`Process` sets. `UpdatedAt` is a `*time.Time`. -/
structure ParsedVaaUpdate where
  ID : String
  EmitterChain : Nat
  EmitterAddr : String
  Sequence : String
  AppID : String
  Result : String
  Timestamp : Time
  UpdatedAt : Option Time
deriving DecidableEq, Repr

/-- Modelled from the spec: the sentinel `parser.ErrInternalError` is declared in the `parser`
package, whose source is not available; §6 names the decode service's error class
`InternalError`. -/
def ErrInternalError : GoError := .sentinel "ErrInternalError"

/-- Modelled from the spec: the sentinel `parser.ErrCallEndpoint` is declared in the `parser`
package, whose source is not available; §6 names the decode service's error class
`EndpointCallError`. -/
def ErrCallEndpoint : GoError := .sentinel "ErrCallEndpoint"

/-- Modelled from the spec: the decode service's third distinguished error class of §6,
`Unparseable`. The code of `Process` never names it. -/
def ErrUnparseable : GoError := .sentinel "ErrUnparseable"

/-! ## The call trace -/

/-- Severity of a `zap` log entry. -/
inductive Level where
  | Info
  | Error
deriving DecidableEq, Repr

/-- A `zap.Field`: `zap.String`, `zap.Uint16` and `zap.Error`. -/
inductive Field where
  | String (key : String) (val : String)
  | Uint16 (key : String) (val : Nat)
  | Error (err : GoError)
deriving DecidableEq, Repr

/-- One call made to a collaborator, with its arguments. -/
inductive Call where
  | Verify (v : VAA)
  | Apply (ctx : Ctx) (key : String)
  | pythProcess (ctx : Ctx) (v : VAA) (serializedVaa : Bytes)
  | nonPythProcess (ctx : Ctx) (v : VAA) (serializedVaa : Bytes)
  | Parse (chainID : Nat) (emitterAddress : String) (sequence : String) (payload : Bytes)
  | Now
  | UpsertParsedVaa (ctx : Ctx) (vaaParsed : ParsedVaaUpdate)
  | Log (level : Level) (msg : String) (fields : List Field)
deriving DecidableEq, Repr

/-- The call is a `Deduplicator.Apply`. -/
def Call.isApply : Call → Bool
  | .Apply _ _ => true
  | _ => false

/-- The call is to the price-oracle push function `pythProcess`. -/
def Call.isPythProcess : Call → Bool
  | .pythProcess _ _ _ => true
  | _ => false

/-- The call is to the generic push function `nonPythProcess`. -/
def Call.isNonPythProcess : Call → Bool
  | .nonPythProcess _ _ _ => true
  | _ => false

/-- The call is to the decode service. -/
def Call.isParse : Call → Bool
  | .Parse _ _ _ _ => true
  | _ => false

/-- The call is a repository upsert. -/
def Call.isUpsert : Call → Bool
  | .UpsertParsedVaa _ _ => true
  | _ => false

/-- The world a function runs in: the collaborators' state and the trace of the calls made to
them so far, oldest first. -/
structure World (σ : Type) where
  st : σ
  calls : List Call

/-- Append a call to the trace. -/
def World.record {σ : Type} (w : World σ) (c : Call) : World σ :=
  ⟨w.st, w.calls ++ [c]⟩

/-- The method `logger.Error(msg, fields...)`: it writes a log entry and nothing else. -/
def loggerError {σ : Type} (msg : String) (fields : List Field) (w : World σ) : World σ :=
  w.record (.Log .Error msg fields)

/-- The method `logger.Info(msg, fields...)`: it writes a log entry and nothing else. -/
def loggerInfo {σ : Type} (msg : String) (fields : List Field) (w : World σ) : World σ :=
  w.record (.Log .Info msg fields)

/-! ## Collaborators of the gossip router -/

/-- The type `VAAPushFunc`: `func(context.Context, *vaa.VAA, []byte) error`. -/
abbrev VAAPushFunc (σ : Type) := Ctx → VAA → Bytes → σ → Option GoError × σ

/-- The verifier `guardiansets.GuardianSetHistory`, as a parameter: `Verify(v) error`. -/
structure GuardianSetHistory (σ : Type) where
  Verify : VAA → σ → Option GoError × σ

/-- What one `Deduplicator.Apply(ctx, key, fn)` call does: it either returns (`done`), or moves
the collaborators' state to `s`, runs the action `fn` it was handed, and goes on from the
action's result and the state the action left (`run`).  Any `Apply` that calls `fn` finitely
many times is of this shape. -/
inductive ApplyPlan (σ : Type) where
  | done (err : Option GoError) (s : σ)
  | run (s : σ) (k : Option GoError → σ → ApplyPlan σ)

/-- The `deduplicator.Deduplicator`, as a parameter: for a context, a key and a state, how
`Apply` proceeds. -/
structure Deduplicator (σ : Type) where
  Apply : Ctx → String → σ → ApplyPlan σ

/-- Carry out a plan with the action `fn`, threading the trace through every run of `fn`. -/
def ApplyPlan.exec {σ : Type} (fn : World σ → Option GoError × World σ) :
    ApplyPlan σ → List Call → Option GoError × World σ
  | .done err s, calls => (err, ⟨s, calls⟩)
  | .run s k, calls => (k (fn ⟨s, calls⟩).1 (fn ⟨s, calls⟩).2.st).exec fn (fn ⟨s, calls⟩).2.calls

/-- How many times carrying out a plan runs the action `fn`. -/
def ApplyPlan.runs {σ : Type} (fn : World σ → Option GoError × World σ) :
    ApplyPlan σ → List Call → Nat
  | .done _ _, _ => 0
  | .run s k, calls =>
    (k (fn ⟨s, calls⟩).1 (fn ⟨s, calls⟩).2.st).runs fn (fn ⟨s, calls⟩).2.calls + 1

/-- The struct `vaaGossipConsumer` (its `logger` writes to the trace). -/
structure vaaGossipConsumer (σ : Type) where
  guardianSetHistory : GuardianSetHistory σ
  nonPythProcess : VAAPushFunc σ
  pythProcess : VAAPushFunc σ
  deduplicator : Deduplicator σ

/-- The constructor `NewVAAGossipConsumer`. -/
def NewVAAGossipConsumer {σ : Type} (guardianSetHistory : GuardianSetHistory σ)
    (deduplicator : Deduplicator σ) (nonPythPublish : VAAPushFunc σ)
    (pythPublish : VAAPushFunc σ) : vaaGossipConsumer σ :=
  { guardianSetHistory := guardianSetHistory
    deduplicator := deduplicator
    nonPythProcess := nonPythPublish
    pythProcess := pythPublish }

/-- The call `p.guardianSetHistory.Verify(v)`. -/
def callVerify {σ : Type} (g : GuardianSetHistory σ) (v : VAA) (w : World σ) :
    Option GoError × World σ :=
  ((g.Verify v w.st).1, ⟨(g.Verify v w.st).2, w.calls ++ [.Verify v]⟩)

/-- The call `p.pythProcess(ctx, v, serializedVaa)`. -/
def callPythProcess {σ : Type} (f : VAAPushFunc σ) (ctx : Ctx) (v : VAA) (serializedVaa : Bytes)
    (w : World σ) : Option GoError × World σ :=
  ((f ctx v serializedVaa w.st).1,
    ⟨(f ctx v serializedVaa w.st).2, w.calls ++ [.pythProcess ctx v serializedVaa]⟩)

/-- The call `p.nonPythProcess(ctx, v, serializedVaa)`. -/
def callNonPythProcess {σ : Type} (f : VAAPushFunc σ) (ctx : Ctx) (v : VAA)
    (serializedVaa : Bytes) (w : World σ) : Option GoError × World σ :=
  ((f ctx v serializedVaa w.st).1,
    ⟨(f ctx v serializedVaa w.st).2, w.calls ++ [.nonPythProcess ctx v serializedVaa]⟩)

/-- The call `p.deduplicator.Apply(ctx, key, fn)`. -/
def callApply {σ : Type} (d : Deduplicator σ) (ctx : Ctx) (key : String)
    (fn : World σ → Option GoError × World σ) (w : World σ) : Option GoError × World σ :=
  (d.Apply ctx key w.st).exec fn (w.calls ++ [.Apply ctx key])

/-! ## `vaaGossipConsumer.Push` -/

/-- The closure that `Push` hands to `Deduplicator.Apply`:
`func() error { if vaa.ChainIDPythNet == v.EmitterChain { return p.pythProcess(ctx, v, serializedVaa) }; return p.nonPythProcess(ctx, v, serializedVaa) }`. -/
def Push.fn {σ : Type} (vaa : VaaSdk) (p : vaaGossipConsumer σ) (ctx : Ctx) (v : VAA)
    (serializedVaa : Bytes) (w : World σ) : Option GoError × World σ :=
  if vaa.ChainIDPythNet = v.EmitterChain then
    callPythProcess p.pythProcess ctx v serializedVaa w
  else
    callNonPythProcess p.nonPythProcess ctx v serializedVaa w

/-- The method `vaaGossipConsumer.Push`: handles incoming VAAs depending on whether it is a
pyth or non pyth. -/
def Push {σ : Type} (vaa : VaaSdk) (p : vaaGossipConsumer σ) (ctx : Ctx) (v : VAA)
    (serializedVaa : Bytes) (w : World σ) : Option GoError × World σ :=
  match callVerify p.guardianSetHistory v w with
  | (some err, w1) =>
    (some err, loggerError "Received invalid vaa" [.String "id" (vaa.MessageID v)] w1)
  | (none, w1) =>
    match callApply p.deduplicator ctx (vaa.MessageID v) (Push.fn vaa p ctx v serializedVaa) w1 with
    | (some err, w2) =>
      (some err, loggerError "Error consuming from Gossip network"
        [.String "id" (vaa.MessageID v), .Error err] w2)
    | (none, w2) => (none, w2)

/-! ## Collaborators of the payload processor -/

/-- The interface `parser.ParserVAAAPIClient`, as a parameter:
`Parse(chainID, emitterAddress, sequence, payload) (*ParseVaaResponse, error)`.  `Process` reads
the response only when the error is nil. -/
structure ParserVAAAPIClient (σ : Type) where
  Parse : Nat → String → String → Bytes → σ → Except GoError ParseVaaResponse × σ

/-- The `parser.Repository`, as a parameter: `UpsertParsedVaa(ctx, vaaParsed) error`. -/
structure Repository (σ : Type) where
  UpsertParsedVaa : Ctx → ParsedVaaUpdate → σ → Option GoError × σ

/-- The clock behind Go's `time.Now()`, as a parameter. -/
structure Clock (σ : Type) where
  Now : σ → Time × σ

/-- The struct `Processor` (its `logger` writes to the trace). -/
structure Processor (σ : Type) where
  parser : ParserVAAAPIClient σ
  repository : Repository σ

/-- The constructor `New`. -/
def New {σ : Type} (parser : ParserVAAAPIClient σ) (repository : Repository σ) : Processor σ :=
  { parser := parser
    repository := repository }

/-- The call `p.parser.Parse(chainID, emitterAddress, sequence, vaa.Payload)`. -/
def callParse {σ : Type} (c : ParserVAAAPIClient σ) (chainID : Nat) (emitterAddress : String)
    (sequence : String) (payload : Bytes) (w : World σ) :
    Except GoError ParseVaaResponse × World σ :=
  ((c.Parse chainID emitterAddress sequence payload w.st).1,
    ⟨(c.Parse chainID emitterAddress sequence payload w.st).2,
      w.calls ++ [.Parse chainID emitterAddress sequence payload]⟩)

/-- The call `time.Now()`. -/
def callNow {σ : Type} (time : Clock σ) (w : World σ) : Time × World σ :=
  ((time.Now w.st).1, ⟨(time.Now w.st).2, w.calls ++ [.Now]⟩)

/-- The call `p.repository.UpsertParsedVaa(ctx, vaaParsed)`. -/
def callUpsertParsedVaa {σ : Type} (r : Repository σ) (ctx : Ctx) (vaaParsed : ParsedVaaUpdate)
    (w : World σ) : Option GoError × World σ :=
  ((r.UpsertParsedVaa ctx vaaParsed w.st).1,
    ⟨(r.UpsertParsedVaa ctx vaaParsed w.st).2, w.calls ++ [.UpsertParsedVaa ctx vaaParsed]⟩)

/-! ## `Processor.Process` -/

/-- The method `Processor.Process`.  The Go result `(*parser.ParsedVaaUpdate, error)` is the
pair of an optional record and an optional error.  `uint16(vaa.EmitterChain)` is the chain
modulo `2^16`, and `fmt.Sprintf("%d", vaa.Sequence)` the decimal numeral of the sequence. -/
def Process {σ : Type} (sdk : VaaSdk) (time : Clock σ) (p : Processor σ) (ctx : Ctx)
    (vaaBytes : Bytes) (w : World σ) : (Option ParsedVaaUpdate × Option GoError) × World σ :=
  match sdk.Unmarshal vaaBytes with
  | .error err => ((none, some err), w)
  | .ok vaa =>
    let chainID := vaa.EmitterChain % 2 ^ 16
    let emitterAddress := sdk.AddressString vaa.EmitterAddress
    let sequence := toString vaa.Sequence
    match callParse p.parser chainID emitterAddress sequence vaa.Payload w with
    | (.error err, w1) =>
      if errorsIs err ErrInternalError || errorsIs err ErrCallEndpoint then
        ((none, some err), w1)
      else
        ((none, none), loggerInfo "VAA cannot be parsed"
          [.Error err, .Uint16 "chainID" chainID, .String "address" emitterAddress,
            .String "sequence" sequence] w1)
    | (.ok vaaParseResponse, w1) =>
      match callNow time w1 with
      | (now, w2) =>
        let vaaParsed : ParsedVaaUpdate :=
          { ID := sdk.MessageID vaa
            EmitterChain := chainID
            EmitterAddr := emitterAddress
            Sequence := sequence
            AppID := vaaParseResponse.AppID
            Result := vaaParseResponse.Result
            Timestamp := vaa.Timestamp
            UpdatedAt := some now }
        match callUpsertParsedVaa p.repository ctx vaaParsed w2 with
        | (some err, w3) =>
          ((none, some err), loggerError "Error inserting vaa in repository"
            [.String "id" vaaParsed.ID, .Error err] w3)
        | (none, w3) =>
          ((some vaaParsed, none), loggerInfo "parsed VAA was successfully persisted"
            [.String "id" vaaParsed.ID] w3)

/-! ## Trace vocabulary and the repository as a map -/

/-- The collaborator call that the closure of `Push` makes for the message `v`. -/
def routedCall (vaa : VaaSdk) (ctx : Ctx) (v : VAA) (serializedVaa : Bytes) : Call :=
  if vaa.ChainIDPythNet = v.EmitterChain then .pythProcess ctx v serializedVaa
  else .nonPythProcess ctx v serializedVaa

/-- Modelled from the spec: the source of `Repository.UpsertParsedVaa` is not available; §4.5
and §6 describe it as an upsert "keyed by MessageID, insert-or-replace semantics".  The repository
content is the list of stored records, and upserting `r` replaces whatever was stored under
the key `r.ID` by `r`. -/
def upsertRecord (r : ParsedVaaUpdate) (records : List ParsedVaaUpdate) :
    List ParsedVaaUpdate :=
  r :: records.filter (fun x => decide (x.ID ≠ r.ID))

/-- Modelled from the spec: a repository that is a map keyed by record ID, whose upsert
always succeeds. -/
def mapRepository : Repository (List ParsedVaaUpdate) :=
  ⟨fun _ vaaParsed records => (none, upsertRecord vaaParsed records)⟩

/-- A decode service that succeeds deterministically: its answer is a function `f` of the
request, and it leaves the collaborators' state alone. -/
def deterministicParser {σ : Type} (f : Nat → String → String → Bytes → ParseVaaResponse) :
    ParserVAAAPIClient σ :=
  ⟨fun chainID emitterAddress sequence payload s =>
    (.ok (f chainID emitterAddress sequence payload), s)⟩

/-- A clock that reads `t`. -/
def clockAt {σ : Type} (t : Time) : Clock σ :=
  ⟨fun s => (t, s)⟩

/-! ## A worked instantiation

Small concrete collaborators on which the definitions can be evaluated.  For the router the
collaborators' state is the deduplicator's list of keys that are done; for the processor it is
the repository content. -/

/-- A message from chain `chain` with sequence number `sequence`, carrying `signatures` and
`payload`. -/
def sampleVAA (chain : Nat) (sequence : Nat) (signatures : List GuardianSignature)
    (payload : Bytes) : VAA :=
  { Version := 1
    GuardianSetIndex := 0
    Signatures := signatures
    Timestamp := 1700000000
    Nonce := 0
    Sequence := sequence
    ConsistencyLevel := 1
    EmitterChain := chain
    EmitterAddress := [10, 11]
    Payload := payload }

/-- A toy envelope decoder: chain, sequence, then the payload. -/
def sampleUnmarshal : Bytes → Except GoError VAA
  | chain :: sequence :: payload => .ok (sampleVAA chain sequence [] payload)
  | _ => .error (.sentinel "ErrUnmarshal")

/-- A toy SDK: `MessageID` is `chain/address/sequence`, PythNet is chain 26. -/
def sampleSdk : VaaSdk :=
  { Unmarshal := sampleUnmarshal
    MessageID := fun v =>
      toString v.EmitterChain ++ "/" ++ String.join (v.EmitterAddress.map toString) ++ "/"
        ++ toString v.Sequence
    AddressString := fun a => String.join (a.map toString)
    ChainIDPythNet := 26 }

/-- A toy verifier: a message without signatures does not reach quorum. -/
def sampleGuardians : GuardianSetHistory (List String) :=
  ⟨fun v s => if v.Signatures = [] then (some (.sentinel "ErrQuorumNotMet"), s) else (none, s)⟩

/-- A deduplicator in the manner of spec §4.2: a key that is done is not run again, a
successful action marks its key done, a failed one does not. -/
def sampleDeduplicator : Deduplicator (List String) :=
  ⟨fun _ key s =>
    if key ∈ s then .done none s
    else .run s (fun r s1 =>
      match r with
      | none => .done none (key :: s1)
      | some err => .done (some err) s1)⟩

/-- A toy generic push function: it refuses an empty serialized message. -/
def sampleNonPyth : VAAPushFunc (List String) :=
  fun _ _ serializedVaa s =>
    if serializedVaa = [] then (some (.sentinel "ErrEmptyMessage"), s) else (none, s)

/-- A toy price-oracle push function: it always succeeds. -/
def samplePyth : VAAPushFunc (List String) :=
  fun _ _ _ s => (none, s)

/-- The toy router. -/
def sampleConsumer : vaaGossipConsumer (List String) :=
  NewVAAGossipConsumer sampleGuardians sampleDeduplicator sampleNonPyth samplePyth

/-- A toy decode service: an empty payload is unparseable, a payload starting with `0` hits
a transport failure, anything else decodes. -/
def sampleParser : ParserVAAAPIClient (List ParsedVaaUpdate) :=
  ⟨fun _ _ _ payload s =>
    match payload with
    | [] => (.error ErrUnparseable, s)
    | 0 :: _ => (.error (.wrap "post /vaa/parse" ErrCallEndpoint), s)
    | _ => (.ok ⟨"PORTAL_TOKEN_BRIDGE", "transfer"⟩, s)⟩

/-- A toy repository: a map that fails when the context `0` (a cancelled one) is used. -/
def sampleRepository : Repository (List ParsedVaaUpdate) :=
  ⟨fun ctx vaaParsed records =>
    if ctx = 0 then (some (.sentinel "ErrContextCanceled"), records)
    else (none, upsertRecord vaaParsed records)⟩

/-- The toy processor. -/
def sampleProcessor : Processor (List ParsedVaaUpdate) :=
  New sampleParser sampleRepository

/-! ## Theorems: the gossip router -/

theorem Push_fn_calls {σ : Type} (vaa : VaaSdk) (p : vaaGossipConsumer σ) (ctx : Ctx) (v : VAA)
    (raw : Bytes) (w : World σ) :
    (Push.fn vaa p ctx v raw w).2.calls = w.calls ++ [routedCall vaa ctx v raw] := by
  unfold Push.fn routedCall
  split <;> rfl

theorem exec_Push_fn_calls {σ : Type} (vaa : VaaSdk) (p : vaaGossipConsumer σ) (ctx : Ctx)
    (v : VAA) (raw : Bytes) (plan : ApplyPlan σ) (calls : List Call) :
    (plan.exec (Push.fn vaa p ctx v raw) calls).2.calls
      = calls ++ List.replicate (plan.runs (Push.fn vaa p ctx v raw) calls)
          (routedCall vaa ctx v raw) := by
  induction plan generalizing calls with
  | done err s => simp [ApplyPlan.exec, ApplyPlan.runs]
  | run s k ih =>
    simp only [ApplyPlan.exec, ApplyPlan.runs]
    rw [ih, Push_fn_calls, List.replicate_succ, List.append_assoc]
    rfl

theorem routedCall_not_isApply (vaa : VaaSdk) (ctx : Ctx) (v : VAA) (raw : Bytes) :
    (routedCall vaa ctx v raw).isApply = false := by
  unfold routedCall
  split <;> rfl

/-- The shape of `Push` on a message that passes `Verify`: the result, state and trace of the
one `Apply` call, followed by an error log entry when `Apply` failed. -/
theorem Push_of_verify_ok {σ : Type} (vaa : VaaSdk) (p : vaaGossipConsumer σ) (ctx : Ctx)
    (v : VAA) (raw : Bytes) (w : World σ) (r : Option GoError × World σ)
    (hv : (p.guardianSetHistory.Verify v w.st).1 = none)
    (hr : r = (p.deduplicator.Apply ctx (vaa.MessageID v)
          (p.guardianSetHistory.Verify v w.st).2).exec (Push.fn vaa p ctx v raw)
          (w.calls ++ [.Verify v] ++ [.Apply ctx (vaa.MessageID v)])) :
    Push vaa p ctx v raw w
      = (r.1, ⟨r.2.st, r.2.calls ++
          (match r.1 with
            | some err => [.Log .Error "Error consuming from Gossip network"
                [.String "id" (vaa.MessageID v), .Error err]]
            | none => [])⟩) := by
  simp only [Push, callVerify, hv, callApply, ← hr]
  rcases r with ⟨_ | err, w2⟩
  · simp
  · simp [loggerError, World.record]

/-- C1: when `guardianSetHistory.Verify(v)` returns an error `e`, `Push(ctx, v, b)` returns
exactly `e`; the only calls it makes are that `Verify` and one error log entry, so neither
`Deduplicator.Apply` nor `pythProcess` nor `nonPythProcess` is invoked, and the collaborators
are left in the state in which `Verify` left them. -/
theorem Push_verify_error {σ : Type} (vaa : VaaSdk) (p : vaaGossipConsumer σ) (ctx : Ctx)
    (v : VAA) (b : Bytes) (w : World σ) (e : GoError)
    (h : (p.guardianSetHistory.Verify v w.st).1 = some e) :
    (Push vaa p ctx v b w).1 = some e
    ∧ (Push vaa p ctx v b w).2.st = (p.guardianSetHistory.Verify v w.st).2
    ∧ (Push vaa p ctx v b w).2.calls
        = w.calls ++ [.Verify v, .Log .Error "Received invalid vaa" [.String "id" (vaa.MessageID v)]]
    ∧ ∀ c ∈ (Push vaa p ctx v b w).2.calls.drop w.calls.length,
        c.isApply = false ∧ c.isPythProcess = false ∧ c.isNonPythProcess = false := by
  have hP : Push vaa p ctx v b w
      = (some e, ⟨(p.guardianSetHistory.Verify v w.st).2,
          w.calls ++ [.Verify v,
            .Log .Error "Received invalid vaa" [.String "id" (vaa.MessageID v)]]⟩) := by
    simp [Push, callVerify, h, loggerError, World.record]
  rw [hP]
  refine ⟨rfl, rfl, rfl, ?_⟩
  intro c hc
  simp only [List.drop_left, List.mem_cons, List.mem_singleton, List.not_mem_nil, or_false] at hc
  rcases hc with rfl | rfl <;> exact ⟨rfl, rfl, rfl⟩

/-- C2: the action that `Push` hands to `Deduplicator.Apply`, executed in any world, makes
exactly one collaborator call: for a message whose `EmitterChain` is `vaa.ChainIDPythNet` it
is `pythProcess(ctx, v, serializedVaa)`, whose result and state it returns, and
`nonPythProcess` is not called; for any other chain it is
`nonPythProcess(ctx, v, serializedVaa)`, and `pythProcess` is not called. -/
theorem Push_fn_routes_to_one_handler {σ : Type} (vaa : VaaSdk) (p : vaaGossipConsumer σ)
    (ctx : Ctx) (v : VAA) (serializedVaa : Bytes) (w : World σ) :
    (Push.fn vaa p ctx v serializedVaa w).2.calls
        = w.calls ++ [if v.EmitterChain = vaa.ChainIDPythNet
            then Call.pythProcess ctx v serializedVaa
            else Call.nonPythProcess ctx v serializedVaa]
    ∧ ((Push.fn vaa p ctx v serializedVaa w).1, (Push.fn vaa p ctx v serializedVaa w).2.st)
        = (if v.EmitterChain = vaa.ChainIDPythNet
            then p.pythProcess ctx v serializedVaa w.st
            else p.nonPythProcess ctx v serializedVaa w.st)
    ∧ (((Push.fn vaa p ctx v serializedVaa w).2.calls.drop w.calls.length).countP
          Call.isPythProcess
        = if v.EmitterChain = vaa.ChainIDPythNet then 1 else 0)
    ∧ (((Push.fn vaa p ctx v serializedVaa w).2.calls.drop w.calls.length).countP
          Call.isNonPythProcess
        = if v.EmitterChain = vaa.ChainIDPythNet then 0 else 1) := by
  by_cases hc : v.EmitterChain = vaa.ChainIDPythNet
  · have hc2 : vaa.ChainIDPythNet = v.EmitterChain := hc.symm
    simp [Push.fn, callPythProcess, hc, Call.isPythProcess, Call.isNonPythProcess]
  · have hc2 : ¬ vaa.ChainIDPythNet = v.EmitterChain := fun h => hc h.symm
    simp [Push.fn, callNonPythProcess, hc, hc2, Call.isPythProcess, Call.isNonPythProcess]

/-- C3: for a message `v` that passes `Verify`, `Push` calls `Deduplicator.Apply` exactly once,
with key `v.MessageID()` and the routing closure, and returns what `Apply` returns (so nil
exactly when `Apply` returns nil); hence, when `Apply` runs the closure and returns the
closure's result, `Push` returns the error value of the selected downstream handler (nil when
that handler succeeds). -/
theorem Push_returns_Apply_result {σ : Type} (vaa : VaaSdk) (p : vaaGossipConsumer σ)
    (ctx : Ctx) (v : VAA) (serializedVaa : Bytes) (w : World σ)
    (hv : (p.guardianSetHistory.Verify v w.st).1 = none) :
    (Push vaa p ctx v serializedVaa w).1
        = ((p.deduplicator.Apply ctx (vaa.MessageID v) (p.guardianSetHistory.Verify v w.st).2).exec
            (Push.fn vaa p ctx v serializedVaa)
            (w.calls ++ [.Verify v] ++ [.Apply ctx (vaa.MessageID v)])).1
    ∧ ((Push vaa p ctx v serializedVaa w).1 = none ↔
        ((p.deduplicator.Apply ctx (vaa.MessageID v) (p.guardianSetHistory.Verify v w.st).2).exec
            (Push.fn vaa p ctx v serializedVaa)
            (w.calls ++ [.Verify v] ++ [.Apply ctx (vaa.MessageID v)])).1 = none)
    ∧ (Push vaa p ctx v serializedVaa w).2.st
        = ((p.deduplicator.Apply ctx (vaa.MessageID v) (p.guardianSetHistory.Verify v w.st).2).exec
            (Push.fn vaa p ctx v serializedVaa)
            (w.calls ++ [.Verify v] ++ [.Apply ctx (vaa.MessageID v)])).2.st
    ∧ ((Push vaa p ctx v serializedVaa w).2.calls.drop w.calls.length).filter Call.isApply
        = [.Apply ctx (vaa.MessageID v)]
    ∧ (∀ (s : σ) (k : Option GoError → σ → ApplyPlan σ),
        p.deduplicator.Apply ctx (vaa.MessageID v) (p.guardianSetHistory.Verify v w.st).2
            = .run s k →
        (∀ r s1, ∃ s2, k r s1 = .done r s2) →
        (Push vaa p ctx v serializedVaa w).1
          = if v.EmitterChain = vaa.ChainIDPythNet
              then (p.pythProcess ctx v serializedVaa s).1
              else (p.nonPythProcess ctx v serializedVaa s).1) := by
  have hP := Push_of_verify_ok vaa p ctx v serializedVaa w _ hv rfl
  have hC := exec_Push_fn_calls vaa p ctx v serializedVaa
    (p.deduplicator.Apply ctx (vaa.MessageID v) (p.guardianSetHistory.Verify v w.st).2)
    (w.calls ++ [.Verify v] ++ [.Apply ctx (vaa.MessageID v)])
  refine ⟨by rw [hP], by rw [hP], by rw [hP], ?_, ?_⟩
  · rw [hP]
    dsimp only
    rw [hC]
    simp only [List.append_assoc, List.drop_left, List.filter_append]
    have h1 : ∀ n, (List.replicate n (routedCall vaa ctx v serializedVaa)).filter Call.isApply
        = [] := by
      intro n
      rw [List.filter_eq_nil_iff]
      intro c hc
      rw [List.eq_of_mem_replicate hc, routedCall_not_isApply]
      decide
    rw [h1]
    split <;> simp [Call.isApply]
  · intro s k hk hdone
    rw [hP, hk]
    obtain ⟨s2, h2⟩ := hdone
      (Push.fn vaa p ctx v serializedVaa
        ⟨s, w.calls ++ [.Verify v] ++ [.Apply ctx (vaa.MessageID v)]⟩).1
      (Push.fn vaa p ctx v serializedVaa
        ⟨s, w.calls ++ [.Verify v] ++ [.Apply ctx (vaa.MessageID v)]⟩).2.st
    simp only [ApplyPlan.exec, h2]
    by_cases hc : v.EmitterChain = vaa.ChainIDPythNet
    · simp [Push.fn, callPythProcess, hc]
    · have hc2 : ¬ vaa.ChainIDPythNet = v.EmitterChain := fun h => hc h.symm
      simp [Push.fn, callNonPythProcess, hc, hc2]

/-! ## Theorems: the payload processor -/

/-- The shape of `Process` when the envelope decodes and the decode service fails. -/
theorem Process_of_parse_error {σ : Type} (sdk : VaaSdk) (time : Clock σ) (p : Processor σ)
    (ctx : Ctx) (vaaBytes : Bytes) (w : World σ) (vaa : VAA) (e : GoError)
    (hU : sdk.Unmarshal vaaBytes = .ok vaa)
    (hP : (p.parser.Parse (vaa.EmitterChain % 2 ^ 16) (sdk.AddressString vaa.EmitterAddress)
            (toString vaa.Sequence) vaa.Payload w.st).1 = .error e) :
    Process sdk time p ctx vaaBytes w
      = if errorsIs e ErrInternalError || errorsIs e ErrCallEndpoint then
          ((none, some e),
            ⟨(p.parser.Parse (vaa.EmitterChain % 2 ^ 16) (sdk.AddressString vaa.EmitterAddress)
                (toString vaa.Sequence) vaa.Payload w.st).2,
              w.calls ++ [.Parse (vaa.EmitterChain % 2 ^ 16)
                (sdk.AddressString vaa.EmitterAddress) (toString vaa.Sequence) vaa.Payload]⟩)
        else
          ((none, none),
            ⟨(p.parser.Parse (vaa.EmitterChain % 2 ^ 16) (sdk.AddressString vaa.EmitterAddress)
                (toString vaa.Sequence) vaa.Payload w.st).2,
              w.calls ++ [.Parse (vaa.EmitterChain % 2 ^ 16)
                  (sdk.AddressString vaa.EmitterAddress) (toString vaa.Sequence) vaa.Payload,
                .Log .Info "VAA cannot be parsed"
                  [.Error e, .Uint16 "chainID" (vaa.EmitterChain % 2 ^ 16),
                    .String "address" (sdk.AddressString vaa.EmitterAddress),
                    .String "sequence" (toString vaa.Sequence)]]⟩) := by
  simp only [Process, hU, callParse, hP]
  split <;> simp [loggerInfo, World.record]

/-- The shape of `Process` when the envelope decodes and the decode service succeeds. -/
theorem Process_of_parse_ok {σ : Type} (sdk : VaaSdk) (time : Clock σ) (p : Processor σ)
    (ctx : Ctx) (vaaBytes : Bytes) (w : World σ) (vaa : VAA) (resp : ParseVaaResponse)
    (s1 s2 : σ) (now : Time) (vaaParsed : ParsedVaaUpdate)
    (hU : sdk.Unmarshal vaaBytes = .ok vaa)
    (hP : p.parser.Parse (vaa.EmitterChain % 2 ^ 16) (sdk.AddressString vaa.EmitterAddress)
            (toString vaa.Sequence) vaa.Payload w.st = (.ok resp, s1))
    (hN : time.Now s1 = (now, s2))
    (hRec : vaaParsed =
      { ID := sdk.MessageID vaa
        EmitterChain := vaa.EmitterChain % 2 ^ 16
        EmitterAddr := sdk.AddressString vaa.EmitterAddress
        Sequence := toString vaa.Sequence
        AppID := resp.AppID
        Result := resp.Result
        Timestamp := vaa.Timestamp
        UpdatedAt := some now }) :
    Process sdk time p ctx vaaBytes w
      = ((match (p.repository.UpsertParsedVaa ctx vaaParsed s2).1 with
          | some err => (none, some err)
          | none => (some vaaParsed, none)),
        ⟨(p.repository.UpsertParsedVaa ctx vaaParsed s2).2,
          w.calls ++ [.Parse (vaa.EmitterChain % 2 ^ 16)
              (sdk.AddressString vaa.EmitterAddress) (toString vaa.Sequence) vaa.Payload,
            .Now, .UpsertParsedVaa ctx vaaParsed,
            (match (p.repository.UpsertParsedVaa ctx vaaParsed s2).1 with
              | some err => .Log .Error "Error inserting vaa in repository"
                  [.String "id" (sdk.MessageID vaa), .Error err]
              | none => .Log .Info "parsed VAA was successfully persisted"
                  [.String "id" (sdk.MessageID vaa)])]⟩) := by
  subst hRec
  simp only [Process, hU, callParse, hP, callNow, hN, callUpsertParsedVaa]
  generalize p.repository.UpsertParsedVaa ctx _ s2 = u
  rcases u with ⟨_ | err, s3⟩ <;> simp [loggerInfo, loggerError, World.record]

/-- C4: when the raw input decodes to the message `vaa` and the decode service succeeds with
`resp` (its `AppID` and `Result`), `Process` calls the repository upsert exactly once, and the
record it passes has the message's `MessageID` as `ID`, the origin chain as a 16-bit value, the
string form of the origin address, the decimal string of the sequence number, the `AppID` and
`Result` of `resp`, the message's timestamp, and as `UpdatedAt` the time `now` read from the
clock during the call; when that upsert succeeds, `Process` returns this record and a nil
error. -/
theorem Process_success_upserts_record {σ : Type} (sdk : VaaSdk) (time : Clock σ)
    (p : Processor σ) (ctx : Ctx) (vaaBytes : Bytes) (w : World σ) (vaa : VAA)
    (resp : ParseVaaResponse) (s1 s2 : σ) (now : Time)
    (hU : sdk.Unmarshal vaaBytes = .ok vaa)
    (hP : p.parser.Parse (vaa.EmitterChain % 2 ^ 16) (sdk.AddressString vaa.EmitterAddress)
            (toString vaa.Sequence) vaa.Payload w.st = (.ok resp, s1))
    (hN : time.Now s1 = (now, s2)) :
    ((Process sdk time p ctx vaaBytes w).2.calls.drop w.calls.length).filter Call.isUpsert
        = [.UpsertParsedVaa ctx
            { ID := sdk.MessageID vaa
              EmitterChain := vaa.EmitterChain % 2 ^ 16
              EmitterAddr := sdk.AddressString vaa.EmitterAddress
              Sequence := toString vaa.Sequence
              AppID := resp.AppID
              Result := resp.Result
              Timestamp := vaa.Timestamp
              UpdatedAt := some now }]
    ∧ (Process sdk time p ctx vaaBytes w).2.st
        = (p.repository.UpsertParsedVaa ctx
            { ID := sdk.MessageID vaa
              EmitterChain := vaa.EmitterChain % 2 ^ 16
              EmitterAddr := sdk.AddressString vaa.EmitterAddress
              Sequence := toString vaa.Sequence
              AppID := resp.AppID
              Result := resp.Result
              Timestamp := vaa.Timestamp
              UpdatedAt := some now } s2).2
    ∧ ((p.repository.UpsertParsedVaa ctx
            { ID := sdk.MessageID vaa
              EmitterChain := vaa.EmitterChain % 2 ^ 16
              EmitterAddr := sdk.AddressString vaa.EmitterAddress
              Sequence := toString vaa.Sequence
              AppID := resp.AppID
              Result := resp.Result
              Timestamp := vaa.Timestamp
              UpdatedAt := some now } s2).1 = none →
        (Process sdk time p ctx vaaBytes w).1
          = (some
              { ID := sdk.MessageID vaa
                EmitterChain := vaa.EmitterChain % 2 ^ 16
                EmitterAddr := sdk.AddressString vaa.EmitterAddress
                Sequence := toString vaa.Sequence
                AppID := resp.AppID
                Result := resp.Result
                Timestamp := vaa.Timestamp
                UpdatedAt := some now }, none)) := by
  have h := Process_of_parse_ok sdk time p ctx vaaBytes w vaa resp s1 s2 now _ hU hP hN rfl
  rw [h]
  refine ⟨?_, rfl, ?_⟩
  · simp only [List.drop_left]
    split <;> simp [Call.isUpsert]
  · intro hnone
    simp only [hnone]

/-- C5: when the raw input decodes and the decode service returns an error `e` that is, or
wraps, `ErrInternalError` or `ErrCallEndpoint`, `Process` returns a nil record together with
`e`; the only call it makes is the one to the decode service, so the repository upsert is
never called and nothing is persisted. -/
theorem Process_retryable_parse_error {σ : Type} (sdk : VaaSdk) (time : Clock σ)
    (p : Processor σ) (ctx : Ctx) (vaaBytes : Bytes) (w : World σ) (vaa : VAA) (e : GoError)
    (hU : sdk.Unmarshal vaaBytes = .ok vaa)
    (hP : (p.parser.Parse (vaa.EmitterChain % 2 ^ 16) (sdk.AddressString vaa.EmitterAddress)
            (toString vaa.Sequence) vaa.Payload w.st).1 = .error e)
    (hE : errorsIs e ErrInternalError = true ∨ errorsIs e ErrCallEndpoint = true) :
    (Process sdk time p ctx vaaBytes w).1 = (none, some e)
    ∧ (Process sdk time p ctx vaaBytes w).2.calls
        = w.calls ++ [.Parse (vaa.EmitterChain % 2 ^ 16)
            (sdk.AddressString vaa.EmitterAddress) (toString vaa.Sequence) vaa.Payload]
    ∧ (Process sdk time p ctx vaaBytes w).2.st
        = (p.parser.Parse (vaa.EmitterChain % 2 ^ 16) (sdk.AddressString vaa.EmitterAddress)
            (toString vaa.Sequence) vaa.Payload w.st).2
    ∧ ∀ c ∈ (Process sdk time p ctx vaaBytes w).2.calls.drop w.calls.length,
        c.isUpsert = false := by
  have hE2 : (errorsIs e ErrInternalError || errorsIs e ErrCallEndpoint) = true := by
    rw [Bool.or_eq_true]
    exact hE
  rw [Process_of_parse_error sdk time p ctx vaaBytes w vaa e hU hP, if_pos hE2]
  refine ⟨rfl, rfl, rfl, ?_⟩
  intro c hc
  simp only [List.drop_left, List.mem_singleton] at hc
  rw [hc]
  rfl

/-- C8: when the raw input decodes and the decode service succeeds, an error `e` returned by
the repository upsert makes `Process` return a nil record together with exactly `e`; and
`Process` returns a record exactly when that upsert returned success. -/
theorem Process_upsert_error {σ : Type} (sdk : VaaSdk) (time : Clock σ)
    (p : Processor σ) (ctx : Ctx) (vaaBytes : Bytes) (w : World σ) (vaa : VAA)
    (resp : ParseVaaResponse) (s1 s2 : σ) (now : Time) (vaaParsed : ParsedVaaUpdate)
    (hU : sdk.Unmarshal vaaBytes = .ok vaa)
    (hP : p.parser.Parse (vaa.EmitterChain % 2 ^ 16) (sdk.AddressString vaa.EmitterAddress)
            (toString vaa.Sequence) vaa.Payload w.st = (.ok resp, s1))
    (hN : time.Now s1 = (now, s2))
    (hRec : vaaParsed =
      { ID := sdk.MessageID vaa
        EmitterChain := vaa.EmitterChain % 2 ^ 16
        EmitterAddr := sdk.AddressString vaa.EmitterAddress
        Sequence := toString vaa.Sequence
        AppID := resp.AppID
        Result := resp.Result
        Timestamp := vaa.Timestamp
        UpdatedAt := some now }) :
    (∀ e, (p.repository.UpsertParsedVaa ctx vaaParsed s2).1 = some e →
        (Process sdk time p ctx vaaBytes w).1 = (none, some e))
    ∧ ((Process sdk time p ctx vaaBytes w).1.1 ≠ none ↔
        (p.repository.UpsertParsedVaa ctx vaaParsed s2).1 = none) := by
  rw [Process_of_parse_ok sdk time p ctx vaaBytes w vaa resp s1 s2 now vaaParsed hU hP hN hRec]
  generalize p.repository.UpsertParsedVaa ctx vaaParsed s2 = u
  rcases u with ⟨_ | err, s3⟩ <;> simp

/-- C9: when the raw input does not decode (`vaa.Unmarshal` fails with `err`), `Process`
returns a nil record together with `err` and makes no call at all: neither the decode service
nor the repository upsert is invoked, and the world is as it was. -/
theorem Process_unmarshal_error {σ : Type} (sdk : VaaSdk) (time : Clock σ)
    (p : Processor σ) (ctx : Ctx) (vaaBytes : Bytes) (w : World σ) (err : GoError)
    (hU : sdk.Unmarshal vaaBytes = .error err) :
    (Process sdk time p ctx vaaBytes w).1 = (none, some err)
    ∧ (Process sdk time p ctx vaaBytes w).2.st = w.st
    ∧ (Process sdk time p ctx vaaBytes w).2.calls = w.calls
    ∧ ∀ c ∈ (Process sdk time p ctx vaaBytes w).2.calls.drop w.calls.length,
        c.isParse = false ∧ c.isUpsert = false := by
  have h : Process sdk time p ctx vaaBytes w = ((none, some err), w) := by
    simp only [Process, hU]
  rw [h]
  refine ⟨rfl, rfl, rfl, ?_⟩
  intro c hc
  simp at hc

/-- C10: when the raw input decodes and the decode service returns an error `e`, `Process`
returns a non-nil error exactly when `e` is, or wraps, `ErrInternalError` or `ErrCallEndpoint`
(and the error returned is then `e`); every other error, `ErrUnparseable` or not, gives a nil
record and a nil error; in both cases there is no repository upsert.  And on every input,
`Process` never returns a non-nil record together with a non-nil error. -/
theorem Process_parse_error_classification {σ : Type} (sdk : VaaSdk) (time : Clock σ)
    (p : Processor σ) (ctx : Ctx) (vaaBytes : Bytes) (w : World σ) :
    (∀ (vaa : VAA) (e : GoError), sdk.Unmarshal vaaBytes = .ok vaa →
      (p.parser.Parse (vaa.EmitterChain % 2 ^ 16) (sdk.AddressString vaa.EmitterAddress)
          (toString vaa.Sequence) vaa.Payload w.st).1 = .error e →
      ((Process sdk time p ctx vaaBytes w).1.2 ≠ none ↔
          (errorsIs e ErrInternalError = true ∨ errorsIs e ErrCallEndpoint = true))
      ∧ ((errorsIs e ErrInternalError = true ∨ errorsIs e ErrCallEndpoint = true) →
          (Process sdk time p ctx vaaBytes w).1 = (none, some e))
      ∧ (¬ (errorsIs e ErrInternalError = true ∨ errorsIs e ErrCallEndpoint = true) →
          (Process sdk time p ctx vaaBytes w).1 = (none, none))
      ∧ ∀ c ∈ (Process sdk time p ctx vaaBytes w).2.calls.drop w.calls.length,
          c.isUpsert = false)
    ∧ ¬ ((Process sdk time p ctx vaaBytes w).1.1 ≠ none
          ∧ (Process sdk time p ctx vaaBytes w).1.2 ≠ none) := by
  constructor
  · intro vaa e hU hP
    rw [Process_of_parse_error sdk time p ctx vaaBytes w vaa e hU hP]
    by_cases hE : (errorsIs e ErrInternalError || errorsIs e ErrCallEndpoint) = true
    · have hE2 := hE
      rw [Bool.or_eq_true] at hE2
      simp only [if_pos hE, hE2, not_true_eq_false, false_implies, true_implies, iff_true,
        true_and, ne_eq, not_false_eq_true, List.drop_left, List.mem_singleton]
      refine ⟨by simp, ?_⟩
      intro c hc
      rw [hc]
      rfl
    · have hE2 := hE
      rw [Bool.or_eq_true] at hE2
      simp only [if_neg hE, hE2, not_false_eq_true, false_implies, true_implies, iff_false,
        true_and, ne_eq, not_true_eq_false, List.drop_left, List.mem_cons, List.mem_singleton,
        List.not_mem_nil, or_false]
      intro c hc
      rcases hc with rfl | rfl <;> rfl
  · cases hU : sdk.Unmarshal vaaBytes with
    | error err =>
      have h : Process sdk time p ctx vaaBytes w = ((none, some err), w) := by
        simp only [Process, hU]
      rw [h]
      simp
    | ok vaa =>
      cases hP : p.parser.Parse (vaa.EmitterChain % 2 ^ 16)
          (sdk.AddressString vaa.EmitterAddress) (toString vaa.Sequence) vaa.Payload w.st with
      | mk res s1 =>
        cases res with
        | error e =>
          have hP1 : (p.parser.Parse (vaa.EmitterChain % 2 ^ 16)
              (sdk.AddressString vaa.EmitterAddress) (toString vaa.Sequence) vaa.Payload
              w.st).1 = .error e := by rw [hP]
          rw [Process_of_parse_error sdk time p ctx vaaBytes w vaa e hU hP1]
          split <;> simp
        | ok resp =>
          rw [Process_of_parse_ok sdk time p ctx vaaBytes w vaa resp s1 (time.Now s1).2
            (time.Now s1).1 _ hU hP rfl rfl]
          generalize p.repository.UpsertParsedVaa ctx _ (time.Now s1).2 = u
          rcases u with ⟨_ | err, s3⟩ <;> simp

theorem filter_ne_upsertRecord (r : ParsedVaaUpdate) (records : List ParsedVaaUpdate) :
    (upsertRecord r records).filter (fun x => decide (x.ID ≠ r.ID))
      = records.filter (fun x => decide (x.ID ≠ r.ID)) := by
  simp [upsertRecord, List.filter_cons, List.filter_filter]

theorem filter_eq_upsertRecord (r : ParsedVaaUpdate) (records : List ParsedVaaUpdate) :
    (upsertRecord r records).filter (fun x => decide (x.ID = r.ID)) = [r] := by
  have h : records.filter (fun a => decide (a.ID = r.ID) && decide (a.ID ≠ r.ID)) = [] := by
    rw [List.filter_eq_nil_iff]
    intro x _
    simp
  simp [upsertRecord, List.filter_cons, List.filter_filter, h]

/-- C7: over the map repository and a decode service that succeeds deterministically, two
`Process` calls with the same decodable raw bytes, the first at time `t1` and the second at
time `t2`, both return a record, and leave exactly one stored record under the message's
`MessageID`: the record of the second call, whose `UpdatedAt` is `t2` and whose other fields
are those of the first call's record; the records stored under other IDs are what they were,
so their number is unchanged. -/
theorem Process_twice_single_record (sdk : VaaSdk)
    (f : Nat → String → String → Bytes → ParseVaaResponse) (ctx : Ctx) (vaaBytes : Bytes)
    (vaa : VAA) (t1 t2 : Time) (w : World (List ParsedVaaUpdate))
    (hU : sdk.Unmarshal vaaBytes = .ok vaa) :
    ∃ rec1 rec2 : ParsedVaaUpdate,
      (Process sdk (clockAt t1) (New (deterministicParser f) mapRepository) ctx vaaBytes w).1
          = (some rec1, none)
      ∧ (Process sdk (clockAt t2) (New (deterministicParser f) mapRepository) ctx vaaBytes
          (Process sdk (clockAt t1) (New (deterministicParser f) mapRepository) ctx vaaBytes
            w).2).1 = (some rec2, none)
      ∧ (Process sdk (clockAt t2) (New (deterministicParser f) mapRepository) ctx vaaBytes
          (Process sdk (clockAt t1) (New (deterministicParser f) mapRepository) ctx vaaBytes
            w).2).2.st.filter (fun x => decide (x.ID = sdk.MessageID vaa)) = [rec2]
      ∧ (Process sdk (clockAt t2) (New (deterministicParser f) mapRepository) ctx vaaBytes
          (Process sdk (clockAt t1) (New (deterministicParser f) mapRepository) ctx vaaBytes
            w).2).2.st.countP (fun x => decide (x.ID = sdk.MessageID vaa)) = 1
      ∧ rec1.UpdatedAt = some t1
      ∧ rec2.UpdatedAt = some t2
      ∧ rec2.ID = rec1.ID
      ∧ rec2.EmitterChain = rec1.EmitterChain
      ∧ rec2.EmitterAddr = rec1.EmitterAddr
      ∧ rec2.Sequence = rec1.Sequence
      ∧ rec2.AppID = rec1.AppID
      ∧ rec2.Result = rec1.Result
      ∧ rec2.Timestamp = rec1.Timestamp
      ∧ (Process sdk (clockAt t2) (New (deterministicParser f) mapRepository) ctx vaaBytes
          (Process sdk (clockAt t1) (New (deterministicParser f) mapRepository) ctx vaaBytes
            w).2).2.st.filter (fun x => decide (x.ID ≠ sdk.MessageID vaa))
          = w.st.filter (fun x => decide (x.ID ≠ sdk.MessageID vaa))
      ∧ (Process sdk (clockAt t2) (New (deterministicParser f) mapRepository) ctx vaaBytes
          (Process sdk (clockAt t1) (New (deterministicParser f) mapRepository) ctx vaaBytes
            w).2).2.st.countP (fun x => decide (x.ID ≠ sdk.MessageID vaa))
          = w.st.countP (fun x => decide (x.ID ≠ sdk.MessageID vaa)) := by
  have h1 := Process_of_parse_ok sdk (clockAt t1) (New (deterministicParser f) mapRepository)
    ctx vaaBytes w vaa _ w.st w.st t1 _ hU rfl rfl rfl
  have h2 := Process_of_parse_ok sdk (clockAt t2) (New (deterministicParser f) mapRepository)
    ctx vaaBytes
    (Process sdk (clockAt t1) (New (deterministicParser f) mapRepository) ctx vaaBytes w).2
    vaa _ _ _ t2 _ hU rfl rfl rfl
  have hst : (Process sdk (clockAt t2) (New (deterministicParser f) mapRepository) ctx vaaBytes
      (Process sdk (clockAt t1) (New (deterministicParser f) mapRepository) ctx vaaBytes
        w).2).2.st
      = upsertRecord
          { ID := sdk.MessageID vaa
            EmitterChain := vaa.EmitterChain % 2 ^ 16
            EmitterAddr := sdk.AddressString vaa.EmitterAddress
            Sequence := toString vaa.Sequence
            AppID := (f (vaa.EmitterChain % 2 ^ 16) (sdk.AddressString vaa.EmitterAddress)
              (toString vaa.Sequence) vaa.Payload).AppID
            Result := (f (vaa.EmitterChain % 2 ^ 16) (sdk.AddressString vaa.EmitterAddress)
              (toString vaa.Sequence) vaa.Payload).Result
            Timestamp := vaa.Timestamp
            UpdatedAt := some t2 }
          (upsertRecord
            { ID := sdk.MessageID vaa
              EmitterChain := vaa.EmitterChain % 2 ^ 16
              EmitterAddr := sdk.AddressString vaa.EmitterAddress
              Sequence := toString vaa.Sequence
              AppID := (f (vaa.EmitterChain % 2 ^ 16) (sdk.AddressString vaa.EmitterAddress)
                (toString vaa.Sequence) vaa.Payload).AppID
              Result := (f (vaa.EmitterChain % 2 ^ 16) (sdk.AddressString vaa.EmitterAddress)
                (toString vaa.Sequence) vaa.Payload).Result
              Timestamp := vaa.Timestamp
              UpdatedAt := some t1 }
            w.st) := by
    rw [h2, h1]
    rfl
  have hne := filter_ne_upsertRecord
  have heq := filter_eq_upsertRecord
  refine ⟨⟨sdk.MessageID vaa, vaa.EmitterChain % 2 ^ 16, sdk.AddressString vaa.EmitterAddress,
      toString vaa.Sequence,
      (f (vaa.EmitterChain % 2 ^ 16) (sdk.AddressString vaa.EmitterAddress)
        (toString vaa.Sequence) vaa.Payload).AppID,
      (f (vaa.EmitterChain % 2 ^ 16) (sdk.AddressString vaa.EmitterAddress)
        (toString vaa.Sequence) vaa.Payload).Result,
      vaa.Timestamp, some t1⟩,
    ⟨sdk.MessageID vaa, vaa.EmitterChain % 2 ^ 16, sdk.AddressString vaa.EmitterAddress,
      toString vaa.Sequence,
      (f (vaa.EmitterChain % 2 ^ 16) (sdk.AddressString vaa.EmitterAddress)
        (toString vaa.Sequence) vaa.Payload).AppID,
      (f (vaa.EmitterChain % 2 ^ 16) (sdk.AddressString vaa.EmitterAddress)
        (toString vaa.Sequence) vaa.Payload).Result,
      vaa.Timestamp, some t2⟩,
    by rw [h1]; rfl, by rw [h2]; rfl, ?_, ?_, rfl, rfl, rfl, rfl, rfl, rfl, rfl, rfl,
    rfl, ?_, ?_⟩
  · rw [hst]
    exact heq _ _
  · rw [hst, List.countP_eq_length_filter]
    exact congrArg List.length (heq _ _)
  · rw [hst]
    exact (hne _ _).trans (hne _ _)
  · rw [hst, List.countP_eq_length_filter, List.countP_eq_length_filter]
    exact congrArg List.length ((hne _ _).trans (hne _ _))

/-! ## The theorems at concrete inputs -/

/-- C1 on the toy router: an unsigned message from chain 2 is refused with the verifier's
error, after a `Verify` and a log entry only. -/
theorem Push_verify_error_witness :
    (sampleConsumer.guardianSetHistory.Verify (sampleVAA 2 42 [] [1, 2, 3]) []).1
        = some (.sentinel "ErrQuorumNotMet")
    ∧ (Push sampleSdk sampleConsumer 1 (sampleVAA 2 42 [] [1, 2, 3]) [9] ⟨[], []⟩).1
        = some (.sentinel "ErrQuorumNotMet")
    ∧ (Push sampleSdk sampleConsumer 1 (sampleVAA 2 42 [] [1, 2, 3]) [9] ⟨[], []⟩).2.calls
        = [.Verify (sampleVAA 2 42 [] [1, 2, 3]),
            .Log .Error "Received invalid vaa" [.String "id" "2/1011/42"]] :=
  ⟨by rfl,
    (Push_verify_error sampleSdk sampleConsumer 1 (sampleVAA 2 42 [] [1, 2, 3]) [9] ⟨[], []⟩
      (.sentinel "ErrQuorumNotMet") (by rfl)).1,
    (Push_verify_error sampleSdk sampleConsumer 1 (sampleVAA 2 42 [] [1, 2, 3]) [9] ⟨[], []⟩
      (.sentinel "ErrQuorumNotMet") (by rfl)).2.2.1⟩

/-- C3 on the toy router: a signed message from chain 5 with an empty serialization is
verified, `Apply` is called once with key `5/1011/42`, and the generic handler's error comes
back from `Push`. -/
theorem Push_returns_Apply_result_witness :
    (sampleConsumer.guardianSetHistory.Verify (sampleVAA 5 42 [⟨0, [1]⟩] [1, 2, 3]) []).1 = none
    ∧ ((Push sampleSdk sampleConsumer 1 (sampleVAA 5 42 [⟨0, [1]⟩] [1, 2, 3]) [] ⟨[], []⟩).2.calls.drop
          (World.mk ([] : List String) []).calls.length).filter Call.isApply
        = [.Apply 1 (sampleSdk.MessageID (sampleVAA 5 42 [⟨0, [1]⟩] [1, 2, 3]))]
    ∧ (Push sampleSdk sampleConsumer 1 (sampleVAA 5 42 [⟨0, [1]⟩] [1, 2, 3]) [] ⟨[], []⟩).1
        = some (.sentinel "ErrEmptyMessage") :=
  ⟨by rfl,
    (Push_returns_Apply_result sampleSdk sampleConsumer 1 (sampleVAA 5 42 [⟨0, [1]⟩] [1, 2, 3]) []
      ⟨[], []⟩ (by rfl)).2.2.2.1,
    (Push_returns_Apply_result sampleSdk sampleConsumer 1 (sampleVAA 5 42 [⟨0, [1]⟩] [1, 2, 3]) []
      ⟨[], []⟩ (by rfl)).2.2.2.2 [] _ (by rfl)
      (fun r s1 => by cases r <;> exact ⟨_, rfl⟩)⟩

/-- C4 on the toy processor: the envelope `[2, 42, 7, 7]` read at time 99 is upserted once and
returned. -/
theorem Process_success_upserts_record_witness :
    sampleSdk.Unmarshal [2, 42, 7, 7]
        = .ok (sampleVAA 2 42 [] [7, 7])
    ∧ ((Process sampleSdk (clockAt 99) sampleProcessor 1 [2, 42, 7, 7] ⟨[], []⟩).2.calls.drop
          (World.mk ([] : List ParsedVaaUpdate) []).calls.length).filter Call.isUpsert
        = [.UpsertParsedVaa 1
            ⟨"2/1011/42", 2, "1011", "42", "PORTAL_TOKEN_BRIDGE", "transfer", 1700000000,
              some 99⟩]
    ∧ (Process sampleSdk (clockAt 99) sampleProcessor 1 [2, 42, 7, 7] ⟨[], []⟩).1
        = (some
            ⟨"2/1011/42", 2, "1011", "42", "PORTAL_TOKEN_BRIDGE", "transfer", 1700000000,
              some 99⟩, none) :=
  ⟨by rfl,
    (Process_success_upserts_record sampleSdk (clockAt 99) sampleProcessor 1 [2, 42, 7, 7]
      ⟨[], []⟩ (sampleVAA 2 42 [] [7, 7]) ⟨"PORTAL_TOKEN_BRIDGE", "transfer"⟩ [] [] 99 (by rfl) (by rfl) (by rfl)).1,
    (Process_success_upserts_record sampleSdk (clockAt 99) sampleProcessor 1 [2, 42, 7, 7]
      ⟨[], []⟩ (sampleVAA 2 42 [] [7, 7]) ⟨"PORTAL_TOKEN_BRIDGE", "transfer"⟩ [] [] 99 (by rfl) (by rfl) (by rfl)).2.2
      (by rfl)⟩

/-- C5 on the toy processor: the envelope `[2, 42, 0]` makes the decode service fail with an
error wrapping `ErrCallEndpoint`, which `Process` returns after the one `Parse` call. -/
theorem Process_retryable_parse_error_witness :
    sampleSdk.Unmarshal [2, 42, 0] = .ok (sampleVAA 2 42 [] [0])
    ∧ errorsIs (.wrap "post /vaa/parse" ErrCallEndpoint) ErrCallEndpoint = true
    ∧ (Process sampleSdk (clockAt 99) sampleProcessor 1 [2, 42, 0] ⟨[], []⟩).1
        = (none, some (.wrap "post /vaa/parse" ErrCallEndpoint))
    ∧ (Process sampleSdk (clockAt 99) sampleProcessor 1 [2, 42, 0] ⟨[], []⟩).2.calls
        = [.Parse 2 "1011" "42" [0]] :=
  ⟨by rfl, by decide,
    (Process_retryable_parse_error sampleSdk (clockAt 99) sampleProcessor 1 [2, 42, 0]
      ⟨[], []⟩ (sampleVAA 2 42 [] [0]) (.wrap "post /vaa/parse" ErrCallEndpoint) (by rfl)
      (by rfl) (Or.inr (by decide))).1,
    (Process_retryable_parse_error sampleSdk (clockAt 99) sampleProcessor 1 [2, 42, 0]
      ⟨[], []⟩ (sampleVAA 2 42 [] [0]) (.wrap "post /vaa/parse" ErrCallEndpoint) (by rfl)
      (by rfl) (Or.inr (by decide))).2.1⟩

/-- C7 on the map repository: the envelope `[2, 42, 7]` processed at time 10 and again at
time 20, over a store that already holds a record of another ID, leaves one record for
`2/1011/42`, updated at 20, next to the other record. -/
theorem Process_twice_single_record_witness :
    sampleSdk.Unmarshal [2, 42, 7] = .ok (sampleVAA 2 42 [] [7])
    ∧ ∃ rec2 : ParsedVaaUpdate,
        (Process sampleSdk (clockAt 20)
          (New (deterministicParser (fun _ _ _ _ => ⟨"APP", "decoded"⟩)) mapRepository) 1
          [2, 42, 7]
          (Process sampleSdk (clockAt 10)
            (New (deterministicParser (fun _ _ _ _ => ⟨"APP", "decoded"⟩)) mapRepository) 1
            [2, 42, 7]
            ⟨[⟨"4/1011/1", 4, "1011", "1", "APP", "old", 5, some 6⟩], []⟩).2).2.st.filter
            (fun x => decide (x.ID = sampleSdk.MessageID (sampleVAA 2 42 [] [7]))) = [rec2]
        ∧ rec2.UpdatedAt = some 20 := by
  obtain ⟨rec1, rec2, _, _, h3, _, _, h6, _⟩ :=
    Process_twice_single_record sampleSdk (fun _ _ _ _ => ⟨"APP", "decoded"⟩) 1 [2, 42, 7]
      (sampleVAA 2 42 [] [7]) 10 20
      ⟨[⟨"4/1011/1", 4, "1011", "1", "APP", "old", 5, some 6⟩], []⟩ (by rfl)
  exact ⟨by rfl, rec2, h3, h6⟩

/-- C8 on the toy processor: with the cancelled context `0` the repository upsert fails, and
`Process` returns a nil record with the repository's error. -/
theorem Process_upsert_error_witness :
    sampleSdk.Unmarshal [2, 42, 7, 7] = .ok (sampleVAA 2 42 [] [7, 7])
    ∧ (sampleProcessor.repository.UpsertParsedVaa 0
        ⟨"2/1011/42", 2, "1011", "42", "PORTAL_TOKEN_BRIDGE", "transfer", 1700000000, some 99⟩
        []).1 = some (.sentinel "ErrContextCanceled")
    ∧ (Process sampleSdk (clockAt 99) sampleProcessor 0 [2, 42, 7, 7] ⟨[], []⟩).1
        = (none, some (.sentinel "ErrContextCanceled")) :=
  ⟨by rfl, by rfl,
    (Process_upsert_error sampleSdk (clockAt 99) sampleProcessor 0 [2, 42, 7, 7] ⟨[], []⟩
      (sampleVAA 2 42 [] [7, 7]) ⟨"PORTAL_TOKEN_BRIDGE", "transfer"⟩ [] [] 99
      ⟨"2/1011/42", 2, "1011", "42", "PORTAL_TOKEN_BRIDGE", "transfer", 1700000000, some 99⟩
      (by rfl) (by rfl) (by rfl) (by rfl)).1 (.sentinel "ErrContextCanceled") (by rfl)⟩

/-- C9 on the toy processor: the empty envelope does not decode; `Process` returns the
decoder's error and makes no call. -/
theorem Process_unmarshal_error_witness :
    sampleSdk.Unmarshal [] = .error (.sentinel "ErrUnmarshal")
    ∧ (Process sampleSdk (clockAt 99) sampleProcessor 1 [] ⟨[], []⟩).1
        = (none, some (.sentinel "ErrUnmarshal"))
    ∧ (Process sampleSdk (clockAt 99) sampleProcessor 1 [] ⟨[], []⟩).2.calls = [] :=
  ⟨by rfl,
    (Process_unmarshal_error sampleSdk (clockAt 99) sampleProcessor 1 [] ⟨[], []⟩
      (.sentinel "ErrUnmarshal") (by rfl)).1,
    (Process_unmarshal_error sampleSdk (clockAt 99) sampleProcessor 1 [] ⟨[], []⟩
      (.sentinel "ErrUnmarshal") (by rfl)).2.2.1⟩

/-- C10 on the toy processor: for the envelope `[2, 42]` the decode service's error is neither
internal nor an endpoint-call error, and `Process` returns nil, nil. -/
theorem Process_parse_error_classification_witness :
    sampleSdk.Unmarshal [2, 42] = .ok (sampleVAA 2 42 [] [])
    ∧ ¬ (errorsIs ErrUnparseable ErrInternalError = true
          ∨ errorsIs ErrUnparseable ErrCallEndpoint = true)
    ∧ (Process sampleSdk (clockAt 99) sampleProcessor 1 [2, 42] ⟨[], []⟩).1 = (none, none) :=
  ⟨by rfl, by decide,
    ((Process_parse_error_classification sampleSdk (clockAt 99) sampleProcessor 1 [2, 42]
      ⟨[], []⟩).1 (sampleVAA 2 42 [] []) ErrUnparseable (by rfl) (by rfl)).2.2.1 (by decide)⟩

end WormholeExplorer
